import Mathlib

/-!
Verification of the RAG-Chatbot transaction engine (`chatbot.py`, `utils.py`).

The Python code is shallowly embedded: transactions are records with the four
fields the code reads, Python string operations (`lower`, `in`, `strip`) are
modelled on `List Char`, machine floats returned by the external
similarity scorer are modelled as rationals (only their ordering matters to
the retrieval logic), and the external pieces (the JSON parser, the
sentence-transformer encoder, the cosine-similarity kernel) enter as explicit
inputs; an exception raised inside them is modelled by a Boolean flag / an
`Option`-valued input, matching the `try/except` structure of the source.
-/

/-- Model of Python `str.lower()` (the repository only ever lowers ASCII
names and queries). -/
def pyLower (s : String) : String := ⟨s.data.map Char.toLower⟩

/-- `listStarts needle hay` : `needle` is a prefix of `hay`. -/
def listStarts : List Char → List Char → Bool
  | [], _ => true
  | _ :: _, [] => false
  | a :: ns, b :: hs => a == b && listStarts ns hs

/-- `isSubstring needle hay` : `needle` occurs contiguously in `hay`;
model of Python `needle in hay`. -/
def isSubstring (needle : List Char) : List Char → Bool
  | [] => needle.isEmpty
  | c :: hs => listStarts needle (c :: hs) || isSubstring needle hs

/-- Model of Python `needle in hay` on strings. -/
def containsStr (hay needle : String) : Bool := isSubstring needle.data hay.data

/-- Python `str.strip()` on the character list: drop whitespace from both ends. -/
def stripChars (l : List Char) : List Char :=
  ((l.dropWhile Char.isWhitespace).reverse.dropWhile Char.isWhitespace).reverse

/-- Model of Python `str.strip()`. -/
def pyStrip (s : String) : String := ⟨stripChars s.data⟩

/-- A well-formed transaction record: the four fields the engine reads.
Amounts are integers, as in the shipped dataset. -/
structure Transaction where
  date : String
  customer : String
  product : String
  amount : Int
deriving DecidableEq, Repr

/-- Sum of the `amount` fields, the Python `sum(t['amount'] for t in data)`. -/
def sumAmounts (data : List Transaction) : Int :=
  (data.map Transaction.amount).sum

/-- `utils.filter_transactions_by_customer`: case-insensitive exact match on
`customer` (`t['customer'].lower() == customer_name.lower()`); the
`except` branch is unreachable on typed records. -/
def filter_transactions_by_customer (data : List Transaction) (customer_name : String) :
    List Transaction :=
  data.filter (fun t => pyLower t.customer = pyLower customer_name)

/-- Python truthiness of the optional `customer_name` argument:
`None` and `""` are falsy. -/
def strTruthy : Option String → Bool
  | none => false
  | some s => s ≠ ""

/-- `utils.calculate_total_spending`: `if customer_name:` filter then sum,
else sum everything. -/
def calculate_total_spending (data : List Transaction)
    (customer_name : Option String := none) : Int :=
  if strTruthy customer_name then
    sumAmounts (filter_transactions_by_customer data (customer_name.getD ""))
  else
    sumAmounts data

/-! ## `generate_answer` (chatbot.py lines 112-204) -/

/-- The customer-name pre-pass of `generate_answer`: bind the first
transaction whose lowered customer name is a substring of the
lowered query (`if transaction['customer'].lower() in query_lower`). -/
def boundCustomer (query_lower : String) : List Transaction → Option String
  | [] => none
  | t :: rest =>
    if containsStr query_lower (pyLower t.customer) then some t.customer
    else boundCustomer query_lower rest

/-- Total-spending trigger: `"total spending" in query_lower or "total spent"
in query_lower or "total amount" in query_lower`. -/
def totalTrigger (ql : String) : Bool :=
  containsStr ql "total spending" || containsStr ql "total spent" ||
    containsStr ql "total amount"

/-- Purchase-history trigger: `"purchase history" in query_lower or
"purchases" in query_lower or "bought" in query_lower`. -/
def purchaseTrigger (ql : String) : Bool :=
  containsStr ql "purchase history" || containsStr ql "purchases" ||
    containsStr ql "bought"

/-- February trigger: `"february" in query_lower or "feb" in query_lower`. -/
def febTrigger (ql : String) : Bool :=
  containsStr ql "february" || containsStr ql "feb"

/-- January trigger. -/
def janTrigger (ql : String) : Bool :=
  containsStr ql "january" || containsStr ql "jan"

/-- March trigger. -/
def marTrigger (ql : String) : Bool :=
  containsStr ql "march" || containsStr ql "mar"

/-- The string built by the bound-customer total-spending branch:
`f"{customer_name}'s total spending is ₹{total}. They made {len(transactions)}
transaction(s):\n"` followed by the newline-joined per-transaction lines. -/
def mkTotalBoundAnswer (name : String) (txs : List Transaction) : String :=
  name ++ "\x27s total spending is ₹" ++ toString (sumAmounts txs) ++
    ". They made " ++ toString txs.length ++ " transaction(s):\n" ++
    String.intercalate "\n"
      (txs.map (fun t => "- " ++ t.product ++ " for ₹" ++ toString t.amount ++
        " on " ++ t.date))

/-- The string built by the bound-customer purchase-history branch, before the
final `strip()`. -/
def mkHistoryBody (name : String) (txs : List Transaction) : String :=
  name ++ "\x27s purchase history:\n" ++
    String.join (txs.map (fun t => "- On " ++ t.date ++ ", purchased " ++
      t.product ++ " for ₹" ++ toString t.amount ++ "\n"))

/-- One month branch: list the matching transactions (stripped) or report that
none were found. `label` is `"February"`, `"January"` or `"March"`. -/
def mkMonthAnswer (label : String) (txs : List Transaction) : String :=
  if !txs.isEmpty then
    pyStrip (label ++ " 2024 transactions:\n" ++
      String.join (txs.map (fun t => "- " ++ t.customer ++ " purchased " ++
        t.product ++ " for ₹" ++ toString t.amount ++ " on " ++ t.date ++ "\n")))
  else "No transactions found for " ++ label ++ " 2024."

/-- `chatbot.generate_answer`. The `except Exception` wrapper of the source is
unreachable in this typed embedding (every operation in the body is total), so
the function is the `try` body; the `not isinstance(query, str)` disjunct of
the guard has no counterpart since `query` is a string by type.  The source's
`if customer_name:` guards (lines 140 and 151) are Python truthiness on the
optional bound name — falsy for both `None` and `""` — modelled by
`strTruthy`, with the name read back by `getD` on the truthy branch. -/
def generate_answer (query : String) (context : List (String × ℚ))
    (raw_data : List Transaction) : String :=
  if query = "" then "Invalid query provided."
  else
    let query_lower := pyLower query
    let customer_name := boundCustomer query_lower raw_data
    if totalTrigger query_lower then
      if strTruthy customer_name then
        let name := customer_name.getD ""
        mkTotalBoundAnswer name (raw_data.filter (fun t => t.customer = name))
      else
        "Total spending across all customers is ₹" ++
          toString (sumAmounts raw_data) ++ "."
    else if purchaseTrigger query_lower then
      if strTruthy customer_name then
        let name := customer_name.getD ""
        let transactions := raw_data.filter (fun t => t.customer = name)
        if !transactions.isEmpty then pyStrip (mkHistoryBody name transactions)
        else "No purchases found for " ++ name ++ "."
      else "Please specify a customer name to view their purchase history."
    else if febTrigger query_lower then
      mkMonthAnswer "February" (raw_data.filter (fun t => containsStr t.date "2024-02"))
    else if janTrigger query_lower then
      mkMonthAnswer "January" (raw_data.filter (fun t => containsStr t.date "2024-01"))
    else if marTrigger query_lower then
      mkMonthAnswer "March" (raw_data.filter (fun t => containsStr t.date "2024-03"))
    else if !context.isEmpty then
      pyStrip ("Based on the transaction data:\n\n" ++
        String.join (context.map (fun p => "- " ++ p.1 ++ "\n")))
    else
      "I couldn\x27t find relevant information to answer your question. Please try rephrasing."

/-- The two-record dataset of spec section 8. -/
def specRecords : List Transaction :=
  [⟨"2024-01-12", "Amit", "Laptop", 55000⟩, ⟨"2024-02-01", "Riya", "Phone", 20000⟩]

/-! ## `retrieve_transactions` (chatbot.py lines 71-110)

The external scorer (`model.encode` followed by `cosine_similarity`) produces
one float per corpus embedding; its output enters as the list `sims : List ℚ`
(rationals model the totally ordered float scores), and an exception raised
inside it as the flag `encodeFails`.  `np.argsort` is modelled as a stable
ascending sort of the indices `0 .. n-1` by score — NumPy's introsort runs
plain insertion sort on the small partitions at issue here, which is stable —
and the slice `[::-1][:min(top_k, len(similarities))]` as `reverse` plus
`take`. -/

/-- Insert index `j` into an accumulator sorted ascending by score, after any
index of equal score (stability). -/
def insertIdx (sims : List ℚ) (j : ℕ) : List ℕ → List ℕ
  | [] => [j]
  | i :: rest =>
    if sims.getD j 0 < sims.getD i 0 then j :: i :: rest
    else i :: insertIdx sims j rest

/-- `np.argsort(similarities)`: the indices `0 .. n-1` stably sorted by
ascending score. -/
def argsort (sims : List ℚ) : List ℕ :=
  (List.range sims.length).foldl (fun acc j => insertIdx sims j acc) []

/-- `np.argsort(similarities)[::-1][:min(top_k, len(similarities))]`. -/
def top_indices (sims : List ℚ) (top_k : ℕ) : List ℕ :=
  ((argsort sims).reverse).take (min top_k sims.length)

/-- The comprehension `[(texts[idx], float(similarities[idx])) for idx in
top_indices]`; `none` models the `IndexError` raised when some index falls
outside `texts` (caught by the enclosing `except`). Indices are always in
range for `similarities`, so scores are read with `getD`. -/
def lookupResults (texts : List String) (sims : List ℚ) :
    List ℕ → Option (List (String × ℚ))
  | [] => some []
  | i :: rest =>
    match texts.get? i with
    | none => none
    | some t => (lookupResults texts sims rest).map (fun rs => (t, sims.getD i 0) :: rs)

/-- `chatbot.retrieve_transactions`.  Control flow of the source: validate the
query, validate non-emptiness of the embedding matrix and the text corpus
(`sims` has one entry per embedding row), then run the scorer — `encodeFails`
models an exception inside `model.encode`/`cosine_similarity`, turned into an
empty result by the `except` — then sort, slice and look up. -/
def retrieve_transactions (query : String) (encodeFails : Bool)
    (sims : List ℚ) (texts : List String) (top_k : ℕ) : List (String × ℚ) :=
  if query = "" then []
  else if sims.length = 0 ∨ texts.length = 0 then []
  else if encodeFails then []
  else
    match lookupResults texts sims (top_indices sims top_k) with
    | some results => results
    | none => []

/-! ## `load_and_prepare` (chatbot.py lines 17-48)

The JSON parse is external; its successful output is a list of records in
which any of the four fields may be absent (`Option`): reading an absent field
(`transaction['date']` etc.) raises `KeyError` in the source, which the
enclosing `except Exception` turns into the pair `([], [])`.  The date string
is never parsed or validated by this function. -/

/-- A record as it comes out of `json.load`: each field possibly missing. -/
structure RawRecord where
  date : Option String
  customer : Option String
  product : Option String
  amount : Option Int
deriving DecidableEq, Repr

/-- One iteration of the description loop: the f-string
`f"On {transaction['date']}, {transaction['customer']} purchased a
{transaction['product']} for {transaction['amount']}."`; `none` models the
`KeyError` on a missing field. -/
def describeRecord (t : RawRecord) : Option String :=
  match t.date, t.customer, t.product, t.amount with
  | some d, some c, some p, some a =>
    some ("On " ++ d ++ ", " ++ c ++ " purchased a " ++ p ++ " for " ++
      toString a ++ ".")
  | _, _, _, _ => none

/-- The description loop: all descriptions, or `none` as soon as one record
raises. -/
def buildTexts : List RawRecord → Option (List String)
  | [] => some []
  | t :: rest =>
    match describeRecord t with
    | none => none
    | some s => (buildTexts rest).map (fun ss => s :: ss)

/-- `chatbot.load_and_prepare` after a successful JSON parse: build all
descriptions; any raised `KeyError` is caught by the blanket `except` and the
whole call returns `([], [])`. -/
def load_and_prepare (raw_data : List RawRecord) : List RawRecord × List String :=
  match buildTexts raw_data with
  | some texts => (raw_data, texts)
  | none => ([], [])

/-- A complete record. -/
def goodRec : RawRecord :=
  ⟨some "2024-01-12", some "Amit", some "Laptop", some 55000⟩

/-- A record with the `amount` field missing. -/
def badRec : RawRecord := ⟨some "2024-02-01", some "Riya", some "Phone", none⟩

/-- A complete record whose date string is not a parseable calendar date. -/
def badDateRec : RawRecord := ⟨some "not-a-date", some "Zoe", some "Pen", some 5⟩

/-- Two customers whose names differ only in case. -/
def caseData : List Transaction :=
  [⟨"2024-01-01", "Amit", "Laptop", 10⟩, ⟨"2024-01-02", "AMIT", "Phone", 20⟩]

/-- A one-record dataset. -/
def oneRec : List Transaction := [⟨"2024-01-01", "Amit", "Laptop", 10⟩]

/-- Strict ascending order on corpus indices by (score, index) lexicographically:
what a stable ascending argsort produces. -/
def scoreTieAsc (sims : List ℚ) (i j : ℕ) : Prop :=
  sims.getD i 0 < sims.getD j 0 ∨ (sims.getD i 0 = sims.getD j 0 ∧ i < j)

/-- Strict descending order on corpus indices: scores strictly decrease, and
equal scores appear with the larger original index first. -/
def scoreTieDesc (sims : List ℚ) (i j : ℕ) : Prop :=
  sims.getD j 0 < sims.getD i 0 ∨ (sims.getD i 0 = sims.getD j 0 ∧ j < i)

/-! ## Sanity evaluations (spec section 8 examples and boundary cases) -/

example : calculate_total_spending specRecords none = 75000 := by decide

example : calculate_total_spending specRecords (some "amit") = 55000 := by decide

example : calculate_total_spending oneRec (some "") = 10 := by decide

example : generate_answer "What is Amit\x27s total spending?" [] specRecords =
    "Amit\x27s total spending is ₹55000. They made 1 transaction(s):\n- Laptop for ₹55000 on 2024-01-12" := by
  decide

example : generate_answer "total amount" [] specRecords =
    "Total spending across all customers is ₹75000." := by decide

example : generate_answer "List all February transactions" [] specRecords =
    "February 2024 transactions:\n- Riya purchased Phone for ₹20000 on 2024-02-01" := by
  decide

example : generate_answer "Show me Riya\x27s purchase history" [] specRecords =
    "Riya\x27s purchase history:\n- On 2024-02-01, purchased Phone for ₹20000" := by
  decide

example : generate_answer "" [] specRecords = "Invalid query provided." := by decide

example : generate_answer "total spending" [] [⟨"2024-01-01", "", "Widget", 5⟩] =
    "Total spending across all customers is ₹5." := by decide

example : generate_answer "purchases" [] [⟨"2024-01-01", "", "Widget", 5⟩] =
    "Please specify a customer name to view their purchase history." := by decide

example : retrieve_transactions "q" false [2, 3, 1] ["a", "b", "c"] 2 =
    [("b", 3), ("a", 2)] := by decide

example : retrieve_transactions "q" false [1, 1] ["a", "b"] 3 =
    [("b", 1), ("a", 1)] := by decide

example : retrieve_transactions "" false [1] ["a"] 3 = [] := by decide

example : load_and_prepare [goodRec] =
    ([goodRec], ["On 2024-01-12, Amit purchased a Laptop for 55000."]) := by decide

example : load_and_prepare [goodRec, badRec] = ([], []) := by decide

example : load_and_prepare [badDateRec] =
    ([badDateRec], ["On not-a-date, Zoe purchased a Pen for 5."]) := by decide

/-! ## Lemmas about the sorting pipeline -/

lemma insertIdx_perm (sims : List ℚ) (j : ℕ) :
    ∀ l, List.Perm (insertIdx sims j l) (j :: l)
  | [] => List.Perm.refl _
  | i :: rest => by
    unfold insertIdx
    split
    · exact List.Perm.refl _
    · exact ((insertIdx_perm sims j rest).cons i).trans (List.Perm.swap j i rest)

lemma foldl_insert_perm (sims : List ℚ) :
    ∀ (l acc : List ℕ),
      List.Perm (l.foldl (fun a j => insertIdx sims j a) acc) (l ++ acc)
  | [], _ => by simp
  | j :: l, acc => by
    simp only [List.foldl_cons]
    exact (foldl_insert_perm sims l (insertIdx sims j acc)).trans
      ((List.Perm.append_left l (insertIdx_perm sims j acc)).trans List.perm_middle)

lemma argsort_perm (sims : List ℚ) :
    List.Perm (argsort sims) (List.range sims.length) := by
  have h := foldl_insert_perm sims (List.range sims.length) []
  simpa [argsort] using h

lemma argsort_length (sims : List ℚ) : (argsort sims).length = sims.length :=
  (argsort_perm sims).length_eq.trans (List.length_range _)

lemma insertIdx_pairwise (sims : List ℚ) (j : ℕ) :
    ∀ l : List ℕ, l.Pairwise (scoreTieAsc sims) → (∀ i ∈ l, i < j) →
      (insertIdx sims j l).Pairwise (scoreTieAsc sims)
  | [], _, _ => by simp [insertIdx]
  | i :: rest, hp, hlt => by
    have hp' := List.pairwise_cons.1 hp
    unfold insertIdx
    split
    case isTrue h =>
      constructor
      · intro x hx
        rcases List.mem_cons.1 hx with rfl | hx
        · exact Or.inl h
        · rcases hp'.1 x hx with h2 | ⟨h2, _⟩
          · exact Or.inl (lt_trans h h2)
          · exact Or.inl (h.trans_eq h2)
      · exact hp
    case isFalse h =>
      constructor
      · intro x hx
        rcases List.mem_cons.1 ((insertIdx_perm sims j rest).mem_iff.1 hx) with rfl | hx
        · rcases lt_or_eq_of_le (not_lt.1 h) with h2 | h2
          · exact Or.inl h2
          · exact Or.inr ⟨h2, hlt i (List.mem_cons_self i rest)⟩
        · exact hp'.1 x hx
      · exact insertIdx_pairwise sims j rest hp'.2
          (fun x hx => hlt x (List.mem_cons_of_mem _ hx))

lemma foldl_insert_pairwise (sims : List ℚ) :
    ∀ (l acc : List ℕ), l.Pairwise (· < ·) →
      acc.Pairwise (scoreTieAsc sims) → (∀ i ∈ acc, ∀ j ∈ l, i < j) →
      (l.foldl (fun a j => insertIdx sims j a) acc).Pairwise (scoreTieAsc sims)
  | [], acc, _, hacc, _ => by simpa using hacc
  | j :: l, acc, hl, hacc, hcross => by
    simp only [List.foldl_cons]
    have hl' := List.pairwise_cons.1 hl
    refine foldl_insert_pairwise sims l (insertIdx sims j acc) hl'.2 ?p ?c
    · exact insertIdx_pairwise sims j acc hacc
        (fun i hi => hcross i hi j (List.mem_cons_self j l))
    · intro i hi k hk
      rcases List.mem_cons.1 ((insertIdx_perm sims j acc).mem_iff.1 hi) with rfl | hia
      · exact hl'.1 k hk
      · exact hcross i hia k (List.mem_cons_of_mem _ hk)

lemma argsort_pairwise (sims : List ℚ) :
    (argsort sims).Pairwise (scoreTieAsc sims) :=
  foldl_insert_pairwise sims (List.range sims.length) []
    (List.pairwise_lt_range _) (by simp) (by simp)

lemma top_indices_pairwise (sims : List ℚ) (k : ℕ) :
    (top_indices sims k).Pairwise (scoreTieDesc sims) := by
  have h1 : (argsort sims).reverse.Pairwise (flip (scoreTieAsc sims)) :=
    List.pairwise_reverse.2 (argsort_pairwise sims)
  have h2 : (argsort sims).reverse.Pairwise (scoreTieDesc sims) := by
    refine h1.imp (fun {a b} h => ?imp)
    rcases h with h | ⟨he, hlt⟩
    · exact Or.inl h
    · exact Or.inr ⟨he.symm, hlt⟩
  exact h2.sublist (List.take_sublist _ _)

lemma top_indices_length (sims : List ℚ) (k : ℕ) :
    (top_indices sims k).length = min k sims.length := by
  unfold top_indices
  rw [List.length_take, List.length_reverse, argsort_length]
  omega

lemma top_indices_lt (sims : List ℚ) (k : ℕ) :
    ∀ i ∈ top_indices sims k, i < sims.length := by
  intro i hi
  have h1 : i ∈ (argsort sims).reverse := (List.take_sublist _ _).mem hi
  exact List.mem_range.1
    ((argsort_perm sims).mem_iff.1 (List.mem_reverse.1 h1))

lemma top_indices_nodup (sims : List ℚ) (k : ℕ) : (top_indices sims k).Nodup := by
  have h1 : (argsort sims).Nodup :=
    ((argsort_perm sims).symm).nodup (List.nodup_range _)
  have h2 : (argsort sims).reverse.Nodup := List.nodup_reverse.2 h1
  exact h2.sublist (List.take_sublist _ _)

lemma lookupResults_eq (texts : List String) (sims : List ℚ) :
    ∀ idxs : List ℕ, (∀ i ∈ idxs, i < texts.length) →
      lookupResults texts sims idxs =
        some (idxs.map (fun i => (texts.getD i "", sims.getD i 0)))
  | [], _ => rfl
  | i :: rest, h => by
    have hi : i < texts.length := h i (List.mem_cons_self i rest)
    have hrest := lookupResults_eq texts sims rest
      (fun j hj => h j (List.mem_cons_of_mem _ hj))
    simp only [lookupResults, List.get?_eq_getElem?, List.getElem?_eq_getElem hi,
      hrest, Option.map_some', List.map_cons]
    rw [List.getD_eq_getElem texts "" hi]

lemma retrieve_eq_map {query : String} (hq : query ≠ "") (sims : List ℚ)
    (texts : List String) (k : ℕ) (hlen : sims.length = texts.length)
    (ht : texts ≠ []) :
    retrieve_transactions query false sims texts k =
      (top_indices sims k).map (fun i => (texts.getD i "", sims.getD i 0)) := by
  have h1 : ¬(sims.length = 0 ∨ texts.length = 0) := by
    rw [hlen]
    simp [List.length_eq_zero, ht]
  unfold retrieve_transactions
  rw [if_neg hq, if_neg h1, if_neg Bool.false_ne_true,
    lookupResults_eq texts sims _ (fun i hi => hlen ▸ top_indices_lt sims k i hi)]

/-! ## Lemmas about string emptiness and the answer branches -/

lemma append_ne_empty_of_right (a : String) {b : String} (h : b ≠ "") :
    a ++ b ≠ "" := by
  intro he
  have hd : a.data ++ b.data = [] := by
    rw [← String.data_append a b, he]
  exact h (String.ext (List.append_eq_nil.1 hd).2)

lemma append_ne_empty_of_left {a : String} (b : String) (h : a ≠ "") :
    a ++ b ≠ "" := by
  intro he
  have hd : a.data ++ b.data = [] := by
    rw [← String.data_append a b, he]
  exact h (String.ext (List.append_eq_nil.1 hd).1)

lemma mem_dropWhile_of_neg {p : Char → Bool} {c : Char} :
    ∀ {l : List Char}, c ∈ l → p c = false → c ∈ l.dropWhile p := by
  intro l
  induction l with
  | nil => intro h _; exact absurd h (List.not_mem_nil c)
  | cons a t ih =>
    intro hc hw
    rw [List.dropWhile_cons]
    by_cases hpa : p a = true
    · rw [if_pos hpa]
      rcases List.mem_cons.1 hc with rfl | h
      · rw [hw] at hpa; exact absurd hpa (by simp)
      · exact ih h hw
    · rw [if_neg hpa]
      exact hc

lemma stripChars_ne_nil {c : Char} {l : List Char} (hc : c ∈ l)
    (hw : c.isWhitespace = false) : stripChars l ≠ [] := by
  intro h
  have h1 : c ∈ l.dropWhile Char.isWhitespace := mem_dropWhile_of_neg hc hw
  have h2 : c ∈ (l.dropWhile Char.isWhitespace).reverse := List.mem_reverse.2 h1
  have h3 : c ∈ (l.dropWhile Char.isWhitespace).reverse.dropWhile Char.isWhitespace :=
    mem_dropWhile_of_neg h2 hw
  rw [stripChars, List.reverse_eq_nil_iff] at h
  rw [h] at h3
  exact absurd h3 (List.not_mem_nil c)

lemma pyStrip_ne_empty {s : String} {c : Char} (hc : c ∈ s.data)
    (hw : c.isWhitespace = false) : pyStrip s ≠ "" := by
  intro h
  have hd : stripChars s.data = [] := congrArg String.data h
  exact stripChars_ne_nil hc hw hd

lemma pyLower_eq_empty_iff {s : String} : pyLower s = "" ↔ s = "" := by
  constructor
  · intro h
    have hd : s.data.map Char.toLower = [] := congrArg String.data h
    exact String.ext (List.map_eq_nil_iff.1 hd)
  · intro h
    rw [h]
    rfl

lemma mkTotalBoundAnswer_ne_empty (name : String) (txs : List Transaction) :
    mkTotalBoundAnswer name txs ≠ "" := by
  unfold mkTotalBoundAnswer
  exact append_ne_empty_of_left _ (append_ne_empty_of_right _ (by decide))

lemma mkHistoryBody_strip_ne_empty (name : String) (txs : List Transaction) :
    pyStrip (mkHistoryBody name txs) ≠ "" := by
  refine pyStrip_ne_empty (c := 'p') ?mem (by decide)
  show 'p' ∈ (mkHistoryBody name txs).data
  unfold mkHistoryBody
  rw [String.data_append, String.data_append]
  exact List.mem_append_left _ (List.mem_append_right _ (by decide))

lemma mkMonthAnswer_ne_empty (label : String) (txs : List Transaction) :
    mkMonthAnswer label txs ≠ "" := by
  unfold mkMonthAnswer
  split
  · refine pyStrip_ne_empty (c := '2') ?mem (by decide)
    rw [String.data_append, String.data_append]
    exact List.mem_append_left _ (List.mem_append_right _ (by decide))
  · exact append_ne_empty_of_left _ (append_ne_empty_of_left _ (by decide))

lemma fallback_strip_ne_empty (context : List (String × ℚ)) :
    pyStrip ("Based on the transaction data:\n\n" ++
      String.join (context.map (fun p => "- " ++ p.1 ++ "\n"))) ≠ "" := by
  refine pyStrip_ne_empty (c := 'B') ?mem (by decide)
  rw [String.data_append]
  exact List.mem_append_left _ (by decide)

/-! ## Lemmas about `buildTexts` -/

lemma buildTexts_eq_some : ∀ raw : List RawRecord,
    (∀ t ∈ raw, (describeRecord t).isSome) →
    buildTexts raw = some (raw.filterMap describeRecord)
  | [], _ => rfl
  | t :: rest, h => by
    rcases Option.isSome_iff_exists.1 (h t (List.mem_cons_self t rest)) with ⟨s, hs⟩
    have hrest := buildTexts_eq_some rest (fun x hx => h x (List.mem_cons_of_mem _ hx))
    simp [buildTexts, hs, hrest, List.filterMap_cons]

lemma buildTexts_eq_none : ∀ raw : List RawRecord,
    (∃ t ∈ raw, describeRecord t = none) → buildTexts raw = none
  | [], h => by simp at h
  | t :: rest, h => by
    rcases h with ⟨x, hx, hnone⟩
    rcases List.mem_cons.1 hx with rfl | hx
    · simp [buildTexts, hnone]
    · cases hd : describeRecord t with
      | none => simp [buildTexts, hd]
      | some s => simp [buildTexts, hd, buildTexts_eq_none rest ⟨x, hx, hnone⟩]

/-! ## Claim theorems: retrieval (C1, C4, C5) -/

/-- C1 counterexample: with two equal scores the code returns the description
of the larger corpus index first, not the smaller one — the claim's ascending
tie-break is false.  `np.argsort([1.0, 1.0])` is `[0, 1]`, so the `[::-1]`
slice puts index `1` first. -/
theorem retrieve_tie_ascending_counterexample :
    (retrieve_transactions "q" false [1, 1] ["a", "b"] 3).map Prod.fst = ["b", "a"] ∧
    (retrieve_transactions "q" false [1, 1] ["a", "b"] 3).map Prod.fst ≠ ["a", "b"] := by
  decide

/-- C1 (amended): for every non-empty query and non-empty corpus, the result
of `retrieve_transactions` is the selected index sequence mapped to
(description, score) pairs, and that index sequence is sorted by
non-increasing score with ties broken by **descending** original corpus index
(the reversal of a stable ascending argsort). -/
theorem retrieve_sorted_desc_tie_larger_index
    (query : String) (sims : List ℚ) (texts : List String) (k : ℕ)
    (hq : query ≠ "") (hlen : sims.length = texts.length) (ht : texts ≠ []) :
    (top_indices sims k).Pairwise (scoreTieDesc sims) ∧
    retrieve_transactions query false sims texts k =
      (top_indices sims k).map (fun i => (texts.getD i "", sims.getD i 0)) :=
  ⟨top_indices_pairwise sims k, retrieve_eq_map hq sims texts k hlen ht⟩

/-- Witness for C1's theorem at a concrete corpus with a tied pair of scores. -/
theorem retrieve_sorted_desc_tie_larger_index_witness :
    (top_indices [1, 1] 3).Pairwise (scoreTieDesc [1, 1]) ∧
    retrieve_transactions "q" false [1, 1] ["a", "b"] 3 =
      (top_indices [1, 1] 3).map
        (fun i => (List.getD ["a", "b"] i "", List.getD [1, 1] i 0)) :=
  retrieve_sorted_desc_tie_larger_index "q" [1, 1] ["a", "b"] 3
    (by decide) (by decide) (by decide)

/-- C4: for a non-empty query and a non-empty corpus of `n` aligned
(embedding, description) rows, `retrieve_transactions` returns exactly
`min top_k n` pairs (hence at most `top_k`), every returned description
occurs in the corpus, and if the corpus has no duplicate descriptions the
returned descriptions have no duplicates either. -/
theorem retrieve_count_membership_nodup
    (query : String) (sims : List ℚ) (texts : List String) (k : ℕ)
    (hq : query ≠ "") (hlen : sims.length = texts.length) (ht : texts ≠ []) :
    (retrieve_transactions query false sims texts k).length = min k texts.length ∧
    (∀ p ∈ retrieve_transactions query false sims texts k, p.1 ∈ texts) ∧
    (texts.Nodup →
      ((retrieve_transactions query false sims texts k).map Prod.fst).Nodup) := by
  have hr := retrieve_eq_map hq sims texts k hlen ht
  refine ⟨?len, ?mem, ?nd⟩
  · rw [hr, List.length_map, top_indices_length, hlen]
  · intro p hp
    rw [hr] at hp
    rcases List.mem_map.1 hp with ⟨i, hi, rfl⟩
    have hlt : i < texts.length := hlen ▸ top_indices_lt sims k i hi
    show texts.getD i "" ∈ texts
    rw [List.getD_eq_getElem texts "" hlt]
    exact List.getElem_mem hlt
  · intro hnd
    rw [hr, List.map_map]
    refine List.Nodup.map_on ?inj (top_indices_nodup sims k)
    intro x hx y hy hxy
    have hxl : x < texts.length := hlen ▸ top_indices_lt sims k x hx
    have hyl : y < texts.length := hlen ▸ top_indices_lt sims k y hy
    simp only [Function.comp] at hxy
    rw [List.getD_eq_getElem texts "" hxl, List.getD_eq_getElem texts "" hyl] at hxy
    exact (List.Nodup.getElem_inj_iff hnd).1 hxy

/-- Witness for C4's theorem: corpus of three rows, `top_k = 2`. -/
theorem retrieve_count_membership_nodup_witness :
    (retrieve_transactions "q" false [2, 3, 1] ["a", "b", "c"] 2).length
        = min 2 (["a", "b", "c"] : List String).length ∧
    (∀ p ∈ retrieve_transactions "q" false [2, 3, 1] ["a", "b", "c"] 2,
        p.1 ∈ (["a", "b", "c"] : List String)) ∧
    ((["a", "b", "c"] : List String).Nodup →
      ((retrieve_transactions "q" false [2, 3, 1] ["a", "b", "c"] 2).map
        Prod.fst).Nodup) :=
  retrieve_count_membership_nodup "q" [2, 3, 1] ["a", "b", "c"] 2
    (by decide) (by decide) (by decide)

/-- C5: `retrieve_transactions` never fails past its boundary: an empty query
yields `[]`, an empty embedding set or empty corpus yields `[]`, and an
exception inside the scorer (the `encodeFails` flag) is converted to `[]`;
all three are ordinary return values of a total function. -/
theorem retrieve_fail_soft
    (query : String) (encodeFails : Bool) (sims : List ℚ)
    (texts : List String) (k : ℕ) :
    (query = "" → retrieve_transactions query encodeFails sims texts k = []) ∧
    (sims = [] ∨ texts = [] →
      retrieve_transactions query encodeFails sims texts k = []) ∧
    (encodeFails = true →
      retrieve_transactions query encodeFails sims texts k = []) := by
  refine ⟨?q, ?e, ?f⟩
  · intro h
    simp [retrieve_transactions, h]
  · intro h
    rcases h with h | h <;> simp [retrieve_transactions, h]
  · intro h
    subst h
    simp [retrieve_transactions]

/-- Witness for C5's theorem: each of the three degraded inputs evaluated. -/
theorem retrieve_fail_soft_witness :
    retrieve_transactions "" false [1] ["a"] 3 = [] ∧
    retrieve_transactions "q" false [] ["a"] 3 = [] ∧
    retrieve_transactions "q" true [1] ["a"] 3 = [] :=
  ⟨(retrieve_fail_soft "" false [1] ["a"] 3).1 rfl,
   (retrieve_fail_soft "q" false [] ["a"] 3).2.1 (Or.inl rfl),
   (retrieve_fail_soft "q" true [1] ["a"] 3).2.2 rfl⟩

/-! ## Claim theorems: intent classification (C6, C7, C3) -/

/-- C6: the intent chain of `generate_answer` is first-match-wins on the
lower-cased query: whenever a total-spending trigger is present, the answer is
the total-spending strategy's answer — the bound-customer breakdown when the
bound name is truthy (present and non-empty), the grand total otherwise —
whatever other triggers (purchase history, month names) the query also
contains, and without consulting the retrieval context. -/
theorem total_intent_first_match_wins
    (query : String) (context : List (String × ℚ)) (raw_data : List Transaction)
    (hq : query ≠ "") (ht : totalTrigger (pyLower query) = true) :
    generate_answer query context raw_data =
      if strTruthy (boundCustomer (pyLower query) raw_data) then
        mkTotalBoundAnswer ((boundCustomer (pyLower query) raw_data).getD "")
          (raw_data.filter
            (fun t => t.customer = (boundCustomer (pyLower query) raw_data).getD ""))
      else
        "Total spending across all customers is ₹" ++
          toString (sumAmounts raw_data) ++ "." := by
  simp only [generate_answer, if_neg hq, ht, if_true]

/-- Witness for C6's theorem: a query containing a total-spending trigger, a
purchase-history trigger and a month trigger at once is answered by the
total-spending strategy. -/
theorem total_intent_first_match_wins_witness :
    generate_answer "total spending on purchases in february" [] specRecords =
      if strTruthy (boundCustomer (pyLower "total spending on purchases in february")
          specRecords) then
        mkTotalBoundAnswer
          ((boundCustomer (pyLower "total spending on purchases in february")
            specRecords).getD "")
          (specRecords.filter (fun t => t.customer =
            (boundCustomer (pyLower "total spending on purchases in february")
              specRecords).getD ""))
      else
        "Total spending across all customers is ₹" ++
          toString (sumAmounts specRecords) ++ "." :=
  total_intent_first_match_wins "total spending on purchases in february" []
    specRecords (by decide) (by decide)

/-- C7: when no total-spending or purchase-history trigger matched, the month
branches are checked in the order February, January, March by substring match
on the lower-cased query, and the selected month's answer is built from
exactly the transactions whose date string contains the fixed fragment
"2024-02" / "2024-01" / "2024-03" respectively (or reports none found). -/
theorem month_filter_order_and_content
    (query : String) (context : List (String × ℚ)) (raw_data : List Transaction)
    (hq : query ≠ "") (h1 : totalTrigger (pyLower query) = false)
    (h2 : purchaseTrigger (pyLower query) = false) :
    (febTrigger (pyLower query) = true →
      generate_answer query context raw_data =
        mkMonthAnswer "February"
          (raw_data.filter (fun t => containsStr t.date "2024-02"))) ∧
    (febTrigger (pyLower query) = false → janTrigger (pyLower query) = true →
      generate_answer query context raw_data =
        mkMonthAnswer "January"
          (raw_data.filter (fun t => containsStr t.date "2024-01"))) ∧
    (febTrigger (pyLower query) = false → janTrigger (pyLower query) = false →
      marTrigger (pyLower query) = true →
      generate_answer query context raw_data =
        mkMonthAnswer "March"
          (raw_data.filter (fun t => containsStr t.date "2024-03"))) := by
  refine ⟨?feb, ?jan, ?mar⟩
  · intro hf
    simp only [generate_answer, if_neg hq, h1, h2, hf, if_true, Bool.false_eq_true,
      if_false]
  · intro hf hj
    simp only [generate_answer, if_neg hq, h1, h2, hf, hj, if_true, Bool.false_eq_true,
      if_false]
  · intro hf hj hm
    simp only [generate_answer, if_neg hq, h1, h2, hf, hj, hm, if_true,
      Bool.false_eq_true, if_false]

/-- Witness for C7's theorem: three queries that reach the month filter; the
first contains all three month triggers and is answered by the February
branch, the second contains January and March triggers and is answered by the
January branch, the third reaches March. -/
theorem month_filter_order_and_content_witness :
    generate_answer "list feb and january and march" [] specRecords =
      mkMonthAnswer "February"
        (specRecords.filter (fun t => containsStr t.date "2024-02")) ∧
    generate_answer "show january and march" [] specRecords =
      mkMonthAnswer "January"
        (specRecords.filter (fun t => containsStr t.date "2024-01")) ∧
    generate_answer "show march" [] specRecords =
      mkMonthAnswer "March"
        (specRecords.filter (fun t => containsStr t.date "2024-03")) :=
  ⟨(month_filter_order_and_content "list feb and january and march" [] specRecords
      (by decide) (by decide) (by decide)).1 (by decide),
   (month_filter_order_and_content "show january and march" [] specRecords
      (by decide) (by decide) (by decide)).2.1 (by decide) (by decide),
   (month_filter_order_and_content "show march" [] specRecords
      (by decide) (by decide) (by decide)).2.2 (by decide) (by decide) (by decide)⟩

/-- C3 counterexample: with customers `"Amit"` and `"AMIT"` and the query
"amit total spending", the code's answer sums and lists only the record whose
customer equals the bound name `"Amit"` **case-sensitively** (total ₹10, one
transaction), not the case-insensitive match set of the Record Store's
`filter_transactions_by_customer` (total ₹30, two transactions) that the
claim requires. -/
theorem total_bound_case_insensitive_counterexample :
    generate_answer "amit total spending" [] caseData =
      mkTotalBoundAnswer "Amit" [⟨"2024-01-01", "Amit", "Laptop", 10⟩] ∧
    generate_answer "amit total spending" [] caseData ≠
      mkTotalBoundAnswer "Amit" (filter_transactions_by_customer caseData "Amit") := by
  decide

/-- C3 (amended): for a query matching the total-spending intent with a bound
**non-empty** customer name (an empty bound name is falsy under the source's
`if customer_name:` guard and falls to the grand-total arm), the answer is
built from exactly the transactions whose `customer` field equals the bound
name **case-sensitively** (Python `==`), in original record order: the
reported total is their amount sum and the breakdown lists precisely them. -/
theorem total_bound_exact_match
    (query : String) (context : List (String × ℚ)) (raw_data : List Transaction)
    (name : String) (hq : query ≠ "")
    (hb : boundCustomer (pyLower query) raw_data = some name)
    (hn : name ≠ "")
    (ht : totalTrigger (pyLower query) = true) :
    generate_answer query context raw_data =
      mkTotalBoundAnswer name (raw_data.filter (fun t => t.customer = name)) := by
  have hs : strTruthy (some name) = true := by simp [strTruthy, hn]
  simp only [generate_answer, if_neg hq, ht, if_true, hb, hs, Option.getD_some]

/-- Witness for C3's amended theorem at the mixed-case dataset. -/
theorem total_bound_exact_match_witness :
    generate_answer "amit total spending" [] caseData =
      mkTotalBoundAnswer "Amit" (caseData.filter (fun t => t.customer = "Amit")) :=
  total_bound_exact_match "amit total spending" [] caseData "Amit"
    (by decide) (by decide) (by decide) (by decide)

/-! ## Claim theorems: answer totality (C9) -/

/-- C9: `generate_answer` is a total function into strings — every query gets
some (in fact non-empty) answer string, and the empty query gets the fixed
invalid-query message. The source guarantees totality with a blanket
`except Exception` returning an apology string; in this typed embedding no
operation of the body can fail, so the `try` body itself is total and the
apology path is unreachable. -/
theorem generate_answer_total_fail_soft
    (query : String) (context : List (String × ℚ)) (raw_data : List Transaction) :
    (query = "" → generate_answer query context raw_data = "Invalid query provided.") ∧
    generate_answer query context raw_data ≠ "" := by
  constructor
  · intro h
    simp [generate_answer, h]
  · by_cases hq : query = ""
    · simp only [generate_answer, if_pos hq]
      decide
    · intro h
      simp only [generate_answer, if_neg hq] at h
      split at h
      · split at h
        · exact mkTotalBoundAnswer_ne_empty _ _ h
        · exact append_ne_empty_of_left _ (append_ne_empty_of_left _ (by decide)) h
      · split at h
        · split at h
          · split at h
            · exact mkHistoryBody_strip_ne_empty _ _ h
            · exact append_ne_empty_of_left _ (append_ne_empty_of_left _ (by decide)) h
          · exact absurd h (by decide)
        · split at h
          · exact mkMonthAnswer_ne_empty _ _ h
          · split at h
            · exact mkMonthAnswer_ne_empty _ _ h
            · split at h
              · exact mkMonthAnswer_ne_empty _ _ h
              · split at h
                · exact fallback_strip_ne_empty _ h
                · exact absurd h (by decide)

/-- Witness for C9's theorem: the empty query gets the fixed message; a
non-empty query gets a non-empty answer. -/
theorem generate_answer_total_fail_soft_witness :
    generate_answer "" [] specRecords = "Invalid query provided." ∧
    generate_answer "hello" [] specRecords ≠ "" :=
  ⟨(generate_answer_total_fail_soft "" [] specRecords).1 rfl,
   (generate_answer_total_fail_soft "hello" [] specRecords).2⟩

/-! ## Claim theorems: total spending (C8, C10) -/

/-- C8 counterexample: the empty string is a customer argument for which the
claim requires the case-insensitively restricted sum (here `0`: no record's
customer matches `""`), but `calculate_total_spending` returns the grand
total `10`, because `if customer_name:` treats `""` as falsy. -/
theorem total_spending_empty_customer_counterexample :
    calculate_total_spending oneRec (some "") = 10 ∧
    sumAmounts (filter_transactions_by_customer oneRec "") = 0 ∧
    calculate_total_spending oneRec (some "") ≠
      sumAmounts (filter_transactions_by_customer oneRec "") := by
  decide

/-- C8 (amended): with no customer argument the result is the sum of all
amounts; with a **non-empty** customer argument it is the sum over the
case-insensitively matching transactions, and `0` when none match; with the
empty string as customer argument it is the grand total (the truthiness
guard skips the restriction). -/
theorem total_spending_sums
    (data : List Transaction) (c : String) :
    calculate_total_spending data none = sumAmounts data ∧
    (c ≠ "" → calculate_total_spending data (some c) =
      sumAmounts (filter_transactions_by_customer data c)) ∧
    (c ≠ "" → filter_transactions_by_customer data c = [] →
      calculate_total_spending data (some c) = 0) ∧
    calculate_total_spending data (some "") = sumAmounts data := by
  have hsome : ∀ s : String, s ≠ "" → calculate_total_spending data (some s) =
      sumAmounts (filter_transactions_by_customer data s) := by
    intro s hs
    simp [calculate_total_spending, strTruthy, hs]
  refine ⟨rfl, hsome c, ?z, ?e⟩
  · intro hc hf
    rw [hsome c hc, hf]
    rfl
  · simp [calculate_total_spending, strTruthy]

/-- Witness for C8's amended theorem: a one-record dataset and the absent
customer "riya". -/
theorem total_spending_sums_witness :
    calculate_total_spending oneRec none = sumAmounts oneRec ∧
    calculate_total_spending oneRec (some "riya") =
      sumAmounts (filter_transactions_by_customer oneRec "riya") ∧
    calculate_total_spending oneRec (some "riya") = 0 ∧
    calculate_total_spending oneRec (some "") = sumAmounts oneRec :=
  ⟨(total_spending_sums oneRec "riya").1,
   (total_spending_sums oneRec "riya").2.1 (by decide),
   (total_spending_sums oneRec "riya").2.2.1 (by decide) (by decide),
   (total_spending_sums oneRec "riya").2.2.2⟩

/-- C10: calling `calculate_total_spending` with the empty string as the
customer argument returns the grand total, exactly as if no customer were
supplied — and indeed, when every record has a non-empty customer name, the
case-insensitive filter for `""` matches no transaction at all. -/
theorem total_spending_empty_string_grand_total (data : List Transaction) :
    calculate_total_spending data (some "") = sumAmounts data ∧
    calculate_total_spending data (some "") = calculate_total_spending data none ∧
    ((∀ t ∈ data, t.customer ≠ "") →
      filter_transactions_by_customer data "" = []) := by
  refine ⟨?g, ?n, ?f⟩
  · simp [calculate_total_spending, strTruthy]
  · simp [calculate_total_spending, strTruthy]
  · intro hnc
    rw [filter_transactions_by_customer]
    rw [List.filter_eq_nil_iff]
    intro t ht
    simp only [decide_eq_true_eq]
    intro hl
    have : t.customer = "" := pyLower_eq_empty_iff.1 (by rw [hl]; rfl)
    exact hnc t ht this

/-- Witness for C10's theorem at the one-record dataset. -/
theorem total_spending_empty_string_grand_total_witness :
    calculate_total_spending oneRec (some "") = sumAmounts oneRec ∧
    calculate_total_spending oneRec (some "") = calculate_total_spending oneRec none ∧
    filter_transactions_by_customer oneRec "" = [] :=
  ⟨(total_spending_empty_string_grand_total oneRec).1,
   (total_spending_empty_string_grand_total oneRec).2.1,
   (total_spending_empty_string_grand_total oneRec).2.2 (by decide)⟩

/-! ## Claim theorems: data loading (C2) -/

/-- C2 counterexample: the list `[goodRec, badRec]` holds one well-formed
record and one record missing the `amount` field; the claim requires the load
to return the well-formed remainder `[goodRec]`, but `load_and_prepare`
returns `([], [])` — the single malformed record is fatal to the whole
load. -/
theorem load_missing_field_counterexample :
    load_and_prepare [goodRec, badRec] = ([], []) ∧
    (load_and_prepare [goodRec, badRec]).1 ≠ [goodRec] := by
  decide

/-- C2 (amended): `load_and_prepare` is all-or-nothing, not per-record: if
every record has all four fields, all records are returned with their
descriptions (records with unparsable date strings included — the date is
never parsed at load time); if any record lacks a field, the whole load
degrades to `([], [])`. -/
theorem load_all_or_nothing (raw : List RawRecord) :
    ((∀ t ∈ raw, (describeRecord t).isSome) →
      load_and_prepare raw = (raw, raw.filterMap describeRecord)) ∧
    ((∃ t ∈ raw, describeRecord t = none) → load_and_prepare raw = ([], [])) := by
  constructor
  · intro h
    rw [load_and_prepare, buildTexts_eq_some raw h]
  · intro h
    rw [load_and_prepare, buildTexts_eq_none raw h]

/-- Witness for C2's amended theorem: a load of two complete records — one
with an unparsable date string, still included — and a load poisoned by one
record missing a field. -/
theorem load_all_or_nothing_witness :
    load_and_prepare [goodRec, badDateRec] =
      ([goodRec, badDateRec], [goodRec, badDateRec].filterMap describeRecord) ∧
    load_and_prepare [goodRec, badRec] = ([], []) :=
  ⟨(load_all_or_nothing [goodRec, badDateRec]).1 (by decide),
   (load_all_or_nothing [goodRec, badRec]).2 ⟨badRec, by decide, by decide⟩⟩
